import Mathlib

/-!
# Verification of the BigCommerce Add-Ons backend (`src/index.js`)

A shallow embedding of the Express backend in `src/index.js`.  JavaScript
values are modelled explicitly: JSON documents by an inductive `Json` type
(with `undefined` fields represented as absent keys), JS numbers by `Rat`
(every numeric value appearing in the program is exact), and JS truthiness
by explicit predicates (`0`, `null`/`undefined` and `""` are falsy; note an
empty array is truthy).  Each route handler becomes a pure Lean function of
its inputs; the single outbound network call of a handler is a parameter of
type `Except Unit _` (`.error` models a thrown transport/JSON failure, the
exact exception value being irrelevant to the handler's behaviour).

The module-load structure of the file is embedded separately
(`startupActions`), because the arrow function opened at line 56 is only
closed by the `});` at line 240: the registrations of `POST /api/settings`,
`GET /api/bc/products/:id`, `GET /` and the call to `app.listen` are
lexically inside the body of the `GET /api/addons/:productId` handler.
-/

/-- JSON values as serialized by `res.json`.  A field that is JS
`undefined` is dropped by serialization, so absence of a key and a key with
`Json.null` are distinct, observable states. -/
inductive Json where
  | null : Json
  | bool (b : Bool) : Json
  | num (n : Rat) : Json
  | str (s : String) : Json
  | arr (items : List Json) : Json
  | obj (fields : List (String × Json)) : Json

/-- Whether a serialized JSON object carries the given key at top level. -/
def Json.hasField : Json → String → Bool
  | .obj fields, k => fields.any (fun f => f.1 == k)
  | _, _ => false

/-- An HTTP response as produced by a handler: status code and JSON body. -/
structure HttpResponse where
  status : Nat
  body : Json

/-- JS truthiness of an optional string (an absent environment variable is
`undefined`; the empty string is also falsy). -/
def strFalsy : Option String → Bool
  | none => true
  | some s => s == ""

/-- `x || null` applied to an optional JS number: `undefined`, `null` and
`0` are all falsy and collapse to `null`. -/
def jsOrNull (x : Option Rat) : Option Rat :=
  match x with
  | none => none
  | some v => if v = 0 then none else some v

/-- `x || null` on an integer-valued JS number (same falsiness rule). -/
def jsOrNullInt (x : Option Int) : Option Int :=
  match x with
  | none => none
  | some v => if v = 0 then none else some v

/-- JS `parseInt(s, 10)`: skip whitespace, optional sign, then the longest
digit run; `none` models `NaN` (no digits found). -/
def leadingDigits : List Char → List Char
  | [] => []
  | c :: cs => if c.isDigit then c :: leadingDigits cs else []

def jsParseInt (s : String) : Option Int :=
  let cs := s.toList.dropWhile Char.isWhitespace
  let signAndRest : Int × List Char :=
    match cs with
    | '-' :: r => (-1, r)
    | '+' :: r => (1, r)
    | r => (1, r)
  let ds := leadingDigits signAndRest.2
  if ds.isEmpty then none
  else some (signAndRest.1 * (ds.foldl (fun a c => a * 10 + (c.toNat - 48)) 0 : Nat))

/-- A manually configured add-on reference, as posted to `/api/settings`
(`{ product_id, variant_id }`; the stored objects are returned verbatim by
the manual-mapping branch of the addons handler). -/
structure AddOnReference where
  product_id : Int
  variant_id : Option Int
deriving DecidableEq

/-- Serialization of a stored reference by `res.json`: exactly its own two
keys — no `name` or `price` key is ever added. -/
def AddOnReference.toJson (r : AddOnReference) : Json :=
  .obj [("product_id", .num (r.product_id : Rat)),
        ("variant_id", match r.variant_id with
                       | some v => .num (v : Rat)
                       | none => .null)]

/-- The display-ready add-on built by the category-driven branch
(lines 112–121 of `index.js`). -/
structure AddOnDescriptor where
  product_id : Int
  variant_id : Option Int
  name : Option String
  price : Option Rat
deriving DecidableEq

def AddOnDescriptor.toJson (d : AddOnDescriptor) : Json :=
  .obj [("product_id", .num (d.product_id : Rat)),
        ("variant_id", match d.variant_id with
                       | some v => .num (v : Rat)
                       | none => .null),
        ("name", match d.name with
                 | some s => .str s
                 | none => .null),
        ("price", match d.price with
                  | some p => .num p
                  | none => .null)]

/-! ## The GraphQL category response, level by level

Each `Option` marks a level the handler probes; the handler's own access
pattern decides whether absence throws or degrades (see `transformEdge`). -/

structure VariantNode where
  entityId : Option Int

structure VariantEdge where
  node : Option VariantNode

structure VariantsConn where
  edges : List VariantEdge

structure PriceObj where
  value : Option Rat

structure PricesObj where
  price : Option PriceObj

structure ProductNode where
  entityId : Int
  name : Option String
  prices : Option PricesObj
  variants : Option VariantsConn

structure ProductEdge where
  node : Option ProductNode

structure ProductsConn where
  edges : List ProductEdge

structure CategoryObj where
  products : Option ProductsConn

structure SiteObj where
  category : Option CategoryObj

structure DataObj where
  site : Option SiteObj

/-- The parsed JSON envelope of the catalog service.  `errors` is `some _`
exactly when the response carries a top-level `errors` field (its value is
kept abstract as `Json`); `data` is the optionally-chained payload. -/
structure GraphQLResponse where
  errors : Option Json
  data : Option DataObj

/-- `json?.data?.site?.category?.products?.edges || []` (line 110). -/
def GraphQLResponse.edgesOrEmpty (j : GraphQLResponse) : List ProductEdge :=
  match j.data with
  | none => []
  | some d =>
    match d.site with
    | none => []
    | some s =>
      match s.category with
      | none => []
      | some c =>
        match c.products with
        | none => []
        | some p => p.edges

/-- The body of `edges.map(({node}) => ...)` (lines 113–121).  A `.error`
models a thrown `TypeError`: `node.variants.edges[0]` throws when the edge
has no `node` or the node has no `variants` container, and
`node.prices.price?.value` throws when the node has no `prices` container.
Deeper absences degrade: a missing first variant edge, variant node or
`entityId` leaf gives `variant_id: null`, and a missing `price` object or
`value` leaf gives `price: null` (both through `|| null`, which also maps
the falsy number `0` to `null`). -/
def transformEdge (e : ProductEdge) : Except Unit AddOnDescriptor :=
  match e.node with
  | none => .error ()
  | some node =>
    match node.variants with
    | none => .error ()
    | some vs =>
      let variantEdge := vs.edges.head?
      match node.prices with
      | none => .error ()
      | some ps =>
        .ok { product_id := node.entityId,
              variant_id :=
                jsOrNullInt ((variantEdge.bind VariantEdge.node).bind VariantNode.entityId),
              name := node.name,
              price := jsOrNull (ps.price.bind PriceObj.value) }

/-- `edges.map(...)`: the first thrown `TypeError` aborts the whole map and
propagates to the handler's `catch`. -/
def mapEdges : List ProductEdge → Except Unit (List AddOnDescriptor)
  | [] => .ok []
  | e :: es =>
    match transformEdge e with
    | .error u => .error u
    | .ok d =>
      match mapEdges es with
      | .error u => .error u
      | .ok ds => .ok (d :: ds)

/-- Lines 112–123: map the edges to descriptors, then
`.filter(item => item.product_id !== parseInt(productId, 10))`.  When the
path parameter does not parse (`NaN`), the strict inequality holds for every
entry and nothing is filtered out. -/
def resolveCategory (productId : String) (edges : List ProductEdge) :
    Except Unit (List AddOnDescriptor) :=
  match mapEdges edges with
  | .error u => .error u
  | .ok addons =>
    .ok (addons.filter fun item =>
      match jsParseInt productId with
      | some pid => decide (item.product_id ≠ pid)
      | none => true)

/-- The in-memory `addOnMappings` object: JS coerces every property key to
a string, so the table maps string keys to stored arrays. -/
def MappingTable := String → Option (List AddOnReference)

/-- Line 34: the table starts empty. -/
def addOnMappings : MappingTable := fun _ => none

/-- The three environment variables consumed by the handlers; `none` models
an unset variable. -/
structure Env where
  addOnCategoryId : Option String
  storefrontToken : Option String
  storeHash : Option String

/-- `GET /api/addons/:productId` (lines 56–130).  `fetch` is the outcome of
the single outbound request, consulted only when the handler reaches it;
the second component of the result records whether the outbound request was
attempted.  Note line 59 tests JS truthiness of the stored value: every
stored array, the empty one included, is truthy and is returned verbatim. -/
def apiAddonsHandler (productId : String) (table : MappingTable) (env : Env)
    (fetch : Except Unit GraphQLResponse) : HttpResponse × Bool :=
  match table productId with
  | some refs =>
    ({ status := 200, body := .obj [("addons", .arr (refs.map AddOnReference.toJson))] }, false)
  | none =>
    if strFalsy env.addOnCategoryId || strFalsy env.storefrontToken || strFalsy env.storeHash then
      ({ status := 200, body := .obj [("addons", .arr [])] }, false)
    else
      match fetch with
      | .error _ =>
        ({ status := 500,
           body := .obj [("error", .str "Failed to fetch add-ons from BigCommerce")] }, true)
      | .ok json =>
        match resolveCategory productId json.edgesOrEmpty with
        | .error _ =>
          ({ status := 500,
             body := .obj [("error", .str "Failed to fetch add-ons from BigCommerce")] }, true)
        | .ok addons =>
          ({ status := 200,
             body := .obj [("addons", .arr (addons.map AddOnDescriptor.toJson))] }, true)

/-- The parsed body of a `POST /api/settings` request.  `product_id` is an
optional number (`none` = key missing); `addons` is either missing, a JSON
array of references, or some non-array value. -/
inductive AddonsField where
  | absent : AddonsField
  | arr (items : List AddOnReference) : AddonsField
  | notArray : AddonsField

def AddonsField.isArr : AddonsField → Bool
  | .arr _ => true
  | _ => false

structure SettingsBody where
  product_id : Option Int
  addons : AddonsField

/-- `POST /api/settings` (lines 147–154): reject when `!product_id` (key
missing, or the falsy number `0`) or `!Array.isArray(addons)`; otherwise
store the array under the stringified product id, replacing any previous
entry for that key. -/
def apiSettingsHandler (body : SettingsBody) (table : MappingTable) :
    HttpResponse × MappingTable :=
  match body.product_id, body.addons with
  | some pid, .arr items =>
    if pid = 0 then
      ({ status := 400, body := .obj [("error", .str "Invalid payload")] }, table)
    else
      ({ status := 200, body := .obj [("success", .bool true)] },
       fun k => if k = toString pid then some items else table k)
  | _, _ =>
    ({ status := 400, body := .obj [("error", .str "Invalid payload")] }, table)

/-- `GET /api/bc/products/:id` (lines 165–230): a 501 before any request
when the token or store hash is unset, otherwise the raw parsed response is
echoed with status 200, and a thrown fetch/parse failure yields 500.  The
second component records whether the outbound request was attempted. -/
def apiBcProductsHandler (env : Env) (fetch : Except Unit Json) :
    HttpResponse × Bool :=
  if strFalsy env.storefrontToken || strFalsy env.storeHash then
    ({ status := 501, body := .obj [("error", .str "Storefront API not configured")] }, false)
  else
    match fetch with
    | .error _ =>
      ({ status := 500, body := .obj [("error", .str "Failed to fetch product")] }, true)
    | .ok result => ({ status := 200, body := result }, true)

/-! ## Module-load structure of `index.js` -/

inductive Route where
  | staticPublic : Route
  | apiAddons : Route
  | apiSettings : Route
  | apiBcProducts : Route
  | rootPage : Route
deriving DecidableEq

inductive ServerAction where
  | register (r : Route) : ServerAction
  | jsonMiddleware : ServerAction
  | listen : ServerAction
deriving DecidableEq

/-- The top-level statements executed when the module loads: the static
mount (line 26), the JSON body parser (line 29) and the registration of
`GET /api/addons/:productId` (line 56).  Nothing else is top-level: the
arrow function opened at line 56 is only closed by the `});` at line 240. -/
def startupActions : List ServerAction :=
  [.register .staticPublic, .jsonMiddleware, .register .apiAddons]

/-- The statements at lines 147–238, lexically inside the body of the
addons handler: they would run only on a request to that route (after its
early returns), never at module load. -/
def addonsHandlerTrailingActions : List ServerAction :=
  [.register .apiSettings, .register .apiBcProducts, .register .rootPage, .listen]

def registeredAtStartup : List Route :=
  startupActions.filterMap fun a =>
    match a with
    | .register r => some r
    | _ => none

/-- A route is served only if the process both registered it and called
`listen`; without a `listen` call no route is ever served. -/
def servedRoutes : List Route :=
  if startupActions.contains .listen then registeredAtStartup else []

/-! ## Helper lemmas -/

theorem mapEdges_cons (e : ProductEdge) (es : List ProductEdge) :
    mapEdges (e :: es) =
      match transformEdge e with
      | .error u => .error u
      | .ok d =>
        match mapEdges es with
        | .error u => .error u
        | .ok ds => .ok (d :: ds) := rfl

theorem mapEdges_forall₂ : ∀ (edges : List ProductEdge) (descs : List AddOnDescriptor),
    mapEdges edges = .ok descs →
    List.Forall₂ (fun e d => transformEdge e = .ok d) edges descs := by
  intro edges
  induction edges with
  | nil =>
    intro descs h
    simp only [mapEdges] at h
    injection h with h
    subst h
    exact List.Forall₂.nil
  | cons e es ih =>
    intro descs h
    rw [mapEdges_cons] at h
    cases he : transformEdge e with
    | error u => rw [he] at h; simp at h
    | ok d =>
      rw [he] at h
      cases hes : mapEdges es with
      | error u => rw [hes] at h; simp at h
      | ok ds =>
        rw [hes] at h
        simp only [Except.ok.injEq] at h
        subst h
        exact List.Forall₂.cons he (ih ds hes)

/-! ## Claim theorems -/

/-- Claim C9: the registrations of POST /api/settings, GET /api/bc/products/:id,
GET / and the call to app.listen are all lexically inside the body of the
GET /api/addons/:productId handler (closed only at line 240); at module load
the process never calls listen, so no route — static mount included — is
ever served, and in particular every served route is trivially the static
mount. -/
theorem C9_startup_never_listens :
    servedRoutes = [] ∧
    startupActions.contains ServerAction.listen = false ∧
    (∀ r ∈ servedRoutes, r = Route.staticPublic) ∧
    ServerAction.register Route.apiSettings ∈ addonsHandlerTrailingActions ∧
    ServerAction.register Route.apiBcProducts ∈ addonsHandlerTrailingActions ∧
    ServerAction.register Route.rootPage ∈ addonsHandlerTrailingActions ∧
    ServerAction.listen ∈ addonsHandlerTrailingActions ∧
    ServerAction.register Route.apiSettings ∉ startupActions ∧
    ServerAction.register Route.apiBcProducts ∉ startupActions ∧
    ServerAction.register Route.rootPage ∉ startupActions := by
  refine ⟨rfl, rfl, ?_, ?_, ?_, ?_, ?_, ?_, ?_, ?_⟩ <;>
    simp [servedRoutes, registeredAtStartup, startupActions, addonsHandlerTrailingActions]

/-- Claim C7: a POST /api/settings body with no product_id, or whose addons
field is not an array, yields 400 with an error body and leaves the mapping
table completely unchanged. -/
theorem C7_invalid_settings_rejected (body : SettingsBody) (t : MappingTable)
    (h : body.product_id = none ∨ body.addons.isArr = false) :
    apiSettingsHandler body t =
      ({ status := 400, body := .obj [("error", .str "Invalid payload")] }, t) := by
  rcases body with ⟨pid, addons⟩
  cases pid <;> cases addons <;> simp_all [apiSettingsHandler, AddonsField.isArr]

theorem C7_invalid_settings_rejected_witness :
    ((⟨none, .arr []⟩ : SettingsBody).product_id = none ∨
      (AddonsField.arr []).isArr = false) ∧
    apiSettingsHandler ⟨none, .arr []⟩ addOnMappings =
      ({ status := 400, body := .obj [("error", .str "Invalid payload")] }, addOnMappings) :=
  ⟨Or.inl rfl, C7_invalid_settings_rejected ⟨none, .arr []⟩ addOnMappings (Or.inl rfl)⟩

/-- Claim C8: a second successful POST /api/settings for the same product id
fully replaces the stored sequence — the lookup afterwards returns exactly
the most recently posted array — and no other key of the table is touched. -/
theorem C8_second_post_replaces (t : MappingTable) (pid : Int)
    (items1 items2 : List AddOnReference) (h : pid ≠ 0) :
    ((apiSettingsHandler ⟨some pid, .arr items2⟩
        (apiSettingsHandler ⟨some pid, .arr items1⟩ t).2).2 (toString pid) = some items2) ∧
    (∀ k, k ≠ toString pid →
      (apiSettingsHandler ⟨some pid, .arr items2⟩
        (apiSettingsHandler ⟨some pid, .arr items1⟩ t).2).2 k = t k) := by
  constructor
  · simp [apiSettingsHandler, h]
  · intro k hk
    simp [apiSettingsHandler, h, hk]

theorem C8_second_post_replaces_witness :
    (101 : Int) ≠ 0 ∧
    ((apiSettingsHandler ⟨some 101, .arr []⟩
        (apiSettingsHandler ⟨some 101, .arr [⟨111, some 222⟩]⟩ addOnMappings).2).2
          (toString (101 : Int)) = some []) :=
  ⟨by decide,
   (C8_second_post_replaces addOnMappings 101 [⟨111, some 222⟩] [] (by decide)).1⟩

/-- Claim C10: a category entry whose listed price value is exactly 0
resolves to a null price (the || default coerces the falsy 0), so a zero
price produces the very same descriptor as an absent price value. -/
theorem C10_zero_price_becomes_null (e : Int) (nm : Option String) (vs : VariantsConn) :
    transformEdge ⟨some ⟨e, nm, some ⟨some ⟨some 0⟩⟩, some vs⟩⟩ =
      .ok { product_id := e,
            variant_id :=
              jsOrNullInt ((vs.edges.head?.bind VariantEdge.node).bind VariantNode.entityId),
            name := nm,
            price := none } ∧
    transformEdge ⟨some ⟨e, nm, some ⟨some ⟨some 0⟩⟩, some vs⟩⟩ =
      transformEdge ⟨some ⟨e, nm, some ⟨some ⟨none⟩⟩, some vs⟩⟩ := by
  constructor <;> simp [transformEdge, jsOrNull]

/-- Claim C1 counterexample: posting the mapping 101 ↦ [{product_id: 111,
variant_id: 222}] and fetching /api/addons/101 returns the stored entry
verbatim — the serialized object carries no name key and no price key at
all, instead of carrying them with value null as the claim requires. -/
theorem C1_counterexample :
    (apiAddonsHandler "101"
        (apiSettingsHandler ⟨some 101, .arr [⟨111, some 222⟩]⟩ addOnMappings).2
        ⟨none, none, none⟩ (.error ())).1 =
      { status := 200,
        body := .obj [("addons", .arr [.obj [("product_id", .num ((111 : Int) : Rat)),
                                             ("variant_id", .num ((222 : Int) : Rat))]])] } ∧
    Json.hasField (.obj [("product_id", .num ((111 : Int) : Rat)),
                         ("variant_id", .num ((222 : Int) : Rat))]) "name" = false ∧
    Json.hasField (.obj [("product_id", .num ((111 : Int) : Rat)),
                         ("variant_id", .num ((222 : Int) : Rat))]) "price" = false :=
  ⟨rfl, rfl, rfl⟩

/-- Claim C1 amended: for every product id with a manual mapping stored via
POST /api/settings, GET /api/addons/:productId returns exactly that mapping
entries in their stored order, serialized verbatim — each entry carries only
its own product_id and variant_id keys; the name and price keys are absent
from the output, not present with value null. -/
theorem C1_amended_manual_mapping_verbatim (t : MappingTable) (env : Env)
    (fetch : Except Unit GraphQLResponse) (pid : Int) (items : List AddOnReference)
    (hpid : pid ≠ 0) (_hne : items ≠ []) :
    apiAddonsHandler (toString pid) (apiSettingsHandler ⟨some pid, .arr items⟩ t).2 env fetch =
      ({ status := 200,
         body := .obj [("addons", .arr (items.map AddOnReference.toJson))] }, false) ∧
    ∀ r : AddOnReference,
      (AddOnReference.toJson r).hasField "name" = false ∧
      (AddOnReference.toJson r).hasField "price" = false := by
  constructor
  · simp [apiSettingsHandler, hpid, apiAddonsHandler]
  · intro r
    exact ⟨rfl, rfl⟩

theorem C1_amended_manual_mapping_verbatim_witness :
    (101 : Int) ≠ 0 ∧ ([⟨111, some 222⟩] : List AddOnReference) ≠ [] ∧
    apiAddonsHandler (toString (101 : Int))
        (apiSettingsHandler ⟨some 101, .arr [⟨111, some 222⟩]⟩ addOnMappings).2
        ⟨none, none, none⟩ (.error ()) =
      ({ status := 200,
         body := .obj [("addons",
           .arr (([⟨111, some 222⟩] : List AddOnReference).map AddOnReference.toJson))] },
       false) :=
  ⟨by decide, by decide,
   (C1_amended_manual_mapping_verbatim addOnMappings ⟨none, none, none⟩ (.error ())
     101 [⟨111, some 222⟩] (by decide) (by decide)).1⟩

/-- Claim C2 counterexample: with credentials configured and no stored
mapping, a catalog response carrying a top-level errors field and no data
makes the addons endpoint answer 200 with an empty addons array (the errors
field is never inspected), and makes the products endpoint echo the errors
envelope with status 200 — neither endpoint returns 500. -/
theorem C2_counterexample :
    apiAddonsHandler "101" addOnMappings ⟨some "42", some "tok", some "hash"⟩
        (.ok ⟨some (.arr []), none⟩) =
      ({ status := 200, body := .obj [("addons", .arr [])] }, true) ∧
    apiBcProductsHandler ⟨some "42", some "tok", some "hash"⟩
        (.ok (.obj [("errors", .arr [])])) =
      ({ status := 200, body := .obj [("errors", .arr [])] }, true) :=
  ⟨rfl, rfl⟩

/-- Claim C2 amended: neither handler ever inspects the errors field of the
catalog response.  A response with a top-level errors field and no data
yields 200 with an empty addons array from the addons endpoint and a 200
echoing the raw envelope from the products endpooint; a 500 with a generic
body arises only when the fetch itself throws (transport or JSON failure). -/
theorem C2_amended_errors_ignored (pid : String) (t : MappingTable) (env : Env)
    (errs : Json) (j : Json)
    (ht : t pid = none)
    (hc : strFalsy env.addOnCategoryId = false)
    (htok : strFalsy env.storefrontToken = false)
    (hh : strFalsy env.storeHash = false) :
    apiAddonsHandler pid t env (.ok ⟨some errs, none⟩) =
      ({ status := 200, body := .obj [("addons", .arr [])] }, true) ∧
    apiBcProductsHandler env (.ok j) = ({ status := 200, body := j }, true) ∧
    apiAddonsHandler pid t env (.error ()) =
      ({ status := 500,
         body := .obj [("error", .str "Failed to fetch add-ons from BigCommerce")] }, true) ∧
    apiBcProductsHandler env (.error ()) =
      ({ status := 500, body := .obj [("error", .str "Failed to fetch product")] }, true) := by
  refine ⟨?_, ?_, ?_, ?_⟩ <;>
    simp [apiAddonsHandler, apiBcProductsHandler, ht, hc, htok, hh,
      resolveCategory, mapEdges, GraphQLResponse.edgesOrEmpty]

theorem C2_amended_errors_ignored_witness :
    apiBcProductsHandler ⟨some "42", some "tok", some "hash"⟩ (.ok .null) =
      ({ status := 200, body := .null }, true) :=
  (C2_amended_errors_ignored "101" addOnMappings ⟨some "42", some "tok", some "hash"⟩
    .null .null rfl rfl rfl rfl).2.1

/-- Claim C3 counterexample: with the store hash unset (token and category
set) and no stored mapping, the addons endpoint answers 200 with an empty
addons array — a silent success result, not a descriptive error response. -/
theorem C3_counterexample :
    apiAddonsHandler "101" addOnMappings ⟨some "42", some "tok", none⟩ (.error ()) =
      ({ status := 200, body := .obj [("addons", .arr [])] }, false) :=
  rfl

/-- Claim C3 amended: when the token or the store hash is missing, neither
endpoint attempts the outbound request; the products endpoint fails fast
with a descriptive 501 error, but the addons endpoint silently falls back
to a 200 success with an empty addons list. -/
theorem C3_amended_failfast (pid : String) (t : MappingTable) (env : Env)
    (f : Except Unit GraphQLResponse) (g : Except Unit Json)
    (h : strFalsy env.storefrontToken = true ∨ strFalsy env.storeHash = true)
    (ht : t pid = none) :
    apiAddonsHandler pid t env f =
      ({ status := 200, body := .obj [("addons", .arr [])] }, false) ∧
    apiBcProductsHandler env g =
      ({ status := 501, body := .obj [("error", .str "Storefront API not configured")] }, false) := by
  rcases h with h | h <;>
    constructor <;> simp [apiAddonsHandler, apiBcProductsHandler, ht, h]

theorem C3_amended_failfast_witness :
    apiAddonsHandler "101" addOnMappings ⟨some "42", some "tok", none⟩ (.error ()) =
      ({ status := 200, body := .obj [("addons", .arr [])] }, false) ∧
    apiBcProductsHandler ⟨some "42", some "tok", none⟩ (.error ()) =
      ({ status := 501, body := .obj [("error", .str "Storefront API not configured")] }, false) :=
  C3_amended_failfast "101" addOnMappings ⟨some "42", some "tok", none⟩
    (.error ()) (.error ()) (Or.inr rfl) rfl

/-- Claim C4 counterexample: a stored empty mapping for product 101 is
truthy in JS, so the handler returns it directly (200 with an empty addons
array, no outbound request attempted) even though credentials are fully
configured and the category fallback would have produced a non-empty list
(the second conjunct evaluates that fallback on the same response). -/
theorem C4_counterexample :
    apiAddonsHandler "101" (fun k => if k = "101" then some [] else none)
        ⟨some "42", some "tok", some "hash"⟩
        (.ok ⟨none, some ⟨some ⟨some ⟨some ⟨[⟨some ⟨7, some "Extra", some ⟨some ⟨some 5⟩⟩,
          some ⟨[⟨some ⟨some 9⟩⟩]⟩⟩⟩]⟩⟩⟩⟩⟩) =
      ({ status := 200, body := .obj [("addons", .arr [])] }, false) ∧
    resolveCategory "101"
        [⟨some ⟨7, some "Extra", some ⟨some ⟨some 5⟩⟩, some ⟨[⟨some ⟨some 9⟩⟩]⟩⟩⟩] =
      .ok [{ product_id := 7, variant_id := some 9, name := some "Extra", price := some 5 }] :=
  ⟨rfl, rfl⟩

/-- Claim C4 amended: any stored mapping — the empty sequence included —
short-circuits resolution: it is returned directly with no outbound request;
the category fallback is reached only when no mapping at all is stored for
the key. -/
theorem C4_amended_any_mapping_short_circuits (pid : String) (t : MappingTable)
    (env : Env) (f : Except Unit GraphQLResponse) (refs : List AddOnReference)
    (h : t pid = some refs) :
    apiAddonsHandler pid t env f =
      ({ status := 200,
         body := .obj [("addons", .arr (refs.map AddOnReference.toJson))] }, false) := by
  simp [apiAddonsHandler, h]

theorem C4_amended_any_mapping_short_circuits_witness :
    ((fun k => if k = "101" then some ([] : List AddOnReference) else none) "101" =
      some ([] : List AddOnReference)) ∧
    apiAddonsHandler "101" (fun k => if k = "101" then some [] else none)
        ⟨some "42", some "tok", some "hash"⟩ (.error ()) =
      ({ status := 200, body := .obj [("addons", .arr [])] }, false) :=
  ⟨rfl,
   C4_amended_any_mapping_short_circuits "101"
     (fun k => if k = "101" then some [] else none)
     ⟨some "42", some "tok", some "hash"⟩ (.error ()) [] rfl⟩

/-- Claim C5: in category-driven resolution, exactly the entries whose
product id equals the (parsed) queried product id are excluded: the output
is the filtered transform list, an order-preserving sublist of the
transformed entries, every surviving entry differs from the queried id, no
entry with a different id is dropped, and the transformed entries are in
one-to-one order-preserving correspondence with the catalog edges. -/
theorem C5_filter_excludes_self (edges : List ProductEdge) (productId : String)
    (p : Int) (descs out : List AddOnDescriptor)
    (hp : jsParseInt productId = some p)
    (hm : mapEdges edges = .ok descs)
    (hr : resolveCategory productId edges = .ok out) :
    out = descs.filter (fun d => decide (d.product_id ≠ p)) ∧
    out.Sublist descs ∧
    (∀ d ∈ out, d.product_id ≠ p) ∧
    (∀ d ∈ descs, d.product_id ≠ p → d ∈ out) ∧
    List.Forall₂ (fun e d => transformEdge e = .ok d) edges descs := by
  have hout : out = descs.filter (fun d => decide (d.product_id ≠ p)) := by
    simp only [resolveCategory, hm, hp, Except.ok.injEq] at hr
    exact hr.symm
  subst hout
  refine ⟨rfl, List.filter_sublist descs, ?_, ?_, mapEdges_forall₂ edges descs hm⟩
  · intro d hd
    exact of_decide_eq_true (List.mem_filter.mp hd).2
  · intro d hd hne
    exact List.mem_filter.mpr ⟨hd, decide_eq_true hne⟩

theorem C5_filter_excludes_self_witness :
    resolveCategory "5"
        [⟨some ⟨5, some "A", some ⟨some ⟨some 3⟩⟩, some ⟨[⟨some ⟨some 9⟩⟩]⟩⟩⟩,
         ⟨some ⟨7, some "B", some ⟨none⟩, some ⟨[]⟩⟩⟩] =
      .ok [{ product_id := 7, variant_id := none, name := some "B", price := none }] ∧
    [{ product_id := 7, variant_id := none, name := some "B", price := none }] =
      ([{ product_id := 5, variant_id := some 9, name := some "A", price := some 3 },
        { product_id := 7, variant_id := none, name := some "B", price := none }] :
          List AddOnDescriptor).filter (fun d => decide (d.product_id ≠ 5)) :=
  ⟨rfl,
   (C5_filter_excludes_self
      [⟨some ⟨5, some "A", some ⟨some ⟨some 3⟩⟩, some ⟨[⟨some ⟨some 9⟩⟩]⟩⟩⟩,
       ⟨some ⟨7, some "B", some ⟨none⟩, some ⟨[]⟩⟩⟩] "5" 5
      [{ product_id := 5, variant_id := some 9, name := some "A", price := some 3 },
       { product_id := 7, variant_id := none, name := some "B", price := none }]
      [{ product_id := 7, variant_id := none, name := some "B", price := none }]
      rfl rfl rfl).1⟩

/-- Claim C6 counterexample: a category entry carrying no prices container
at all (the nested price field is absent) makes the transform throw, so the
whole request fails with 500 instead of degrading that field to null. -/
theorem C6_counterexample :
    apiAddonsHandler "101" addOnMappings ⟨some "42", some "tok", some "hash"⟩
        (.ok ⟨none, some ⟨some ⟨some ⟨some ⟨[⟨some ⟨7, some "Extra", none, some ⟨[]⟩⟩⟩]⟩⟩⟩⟩⟩) =
      ({ status := 500,
         body := .obj [("error", .str "Failed to fetch add-ons from BigCommerce")] }, true) :=
  rfl

/-- Helper for the amended C6: when every edge carries its node and the
node carries its variants and prices containers, the whole map succeeds. -/
theorem mapEdges_ok_of_wf : ∀ (edges : List ProductEdge),
    (∀ e ∈ edges, ∃ n vs ps, e.node = some n ∧ n.variants = some vs ∧ n.prices = some ps) →
    ∃ ds, mapEdges edges = .ok ds := by
  intro edges
  induction edges with
  | nil => intro _; exact ⟨[], rfl⟩
  | cons e es ih =>
    intro h
    obtain ⟨n, vs, ps, hn, hvs, hps⟩ := h e (List.mem_cons_self e es)
    obtain ⟨ds, hds⟩ := ih (fun x hx => h x (List.mem_cons_of_mem e hx))
    refine ⟨{ product_id := n.entityId,
              variant_id :=
                jsOrNullInt ((vs.edges.head?.bind VariantEdge.node).bind VariantNode.entityId),
              name := n.name,
              price := jsOrNull (ps.price.bind PriceObj.value) } :: ds, ?_⟩
    rw [mapEdges_cons]
    have hte : transformEdge e = .ok
        { product_id := n.entityId,
          variant_id :=
            jsOrNullInt ((vs.edges.head?.bind VariantEdge.node).bind VariantNode.entityId),
          name := n.name,
          price := jsOrNull (ps.price.bind PriceObj.value) } := by
      simp [transformEdge, hn, hvs, hps]
    rw [hte, hds]

/-- A successful `resolveCategory` outcome, as a boolean. -/
def resolveSucceeds (productId : String) (edges : List ProductEdge) : Bool :=
  match resolveCategory productId edges with
  | .ok _ => true
  | .error _ => false

/-- Claim C6 amended: missing nested leaves below a present variants or
prices container degrade to null without failing the call — an empty
variant edge list gives a null variant id and an absent price object gives
a null price — and when every entry carries both containers the whole
request completes successfully; but an entry lacking the variants or prices
container itself makes the request fail (see the counterexample). -/
theorem C6_amended_leaf_tolerance (edges : List ProductEdge) (productId : String)
    (h : ∀ e ∈ edges, ∃ n vs ps, e.node = some n ∧ n.variants = some vs ∧ n.prices = some ps) :
    resolveSucceeds productId edges = true ∧
    (∀ (n : ProductNode) (vs : VariantsConn) (ps : PricesObj),
      n.variants = some vs → n.prices = some ps →
      ∃ d, transformEdge ⟨some n⟩ = .ok d ∧
        (ps.price = none → d.price = none) ∧
        (vs.edges = [] → d.variant_id = none)) := by
  constructor
  · obtain ⟨ds, hds⟩ := mapEdges_ok_of_wf edges h
    simp [resolveSucceeds, resolveCategory, hds]
  · intro n vs ps hvs hps
    refine ⟨{ product_id := n.entityId,
              variant_id :=
                jsOrNullInt ((vs.edges.head?.bind VariantEdge.node).bind VariantNode.entityId),
              name := n.name,
              price := jsOrNull (ps.price.bind PriceObj.value) }, ?_, ?_, ?_⟩
    · simp [transformEdge, hvs, hps]
    · intro hpp
      simp [hpp, jsOrNull]
    · intro hve
      simp [hve, jsOrNullInt]

theorem C6_amended_leaf_tolerance_witness :
    resolveSucceeds "5" [⟨some ⟨7, some "B", some ⟨none⟩, some ⟨[]⟩⟩⟩] = true :=
  (C6_amended_leaf_tolerance [⟨some ⟨7, some "B", some ⟨none⟩, some ⟨[]⟩⟩⟩] "5"
    (fun e he => by
      simp only [List.mem_singleton] at he
      subst he
      exact ⟨_, _, _, rfl, rfl, rfl⟩)).1
